import Mathlib

/-!
Verification of the draft-authoring engine of `src/bot_trello.py` (Telegram/Trello bot).

The embedding models, faithfully to the Python source:
* the per-operator draft store (`rascunhos_cartoes/<user>/rascunho_<k>.json` files):
  `salvar_rascunho`, `carregar_rascunhos`, `atualizar_rascunho`, `limpar_rascunhos`
  (src lines 254-306);
* date normalisation `parse_date_ddmmaa` (src 426-434), including the
  `datetime.strptime(s, "%d/%m/%Y")` format check;
* the per-operator conversation state (`user_states[user_id]` dict) and the text /
  document / cancel event handlers for the draft-store flows
  (`handle_text` src 688-962, `cancelar_cmd` src 674-685, `handle_document` src 2485-2585);
* the commit pipeline `criar_cartoes_cmd` (src 2200-2342) against an abstract Trello
  RPC oracle.

Modelling conventions:
* Python dict state is a record; an absent key with falsy default is the default field
  value (`user_states[user_id] = {"mode": None}` is the all-default record).
* `os.listdir` returns names in an order the OS does not fix; the model uses the
  lexicographic order of the names (code-point order, the same order Python's
  `arquivos.sort()` in `atualizar_rascunho` produces).  This is the most favourable
  deterministic reading for the spec's ordering claims.
* Remote Trello calls are an oracle `TrelloApi`; `requests` exceptions are its
  `.error` results.  A Python exception escaping a handler is `Except.error`.
-/

namespace BotTrello

/-! ### String helpers (models of the Python `str` methods used by the source) -/

/-- Model of Python `str.strip()`: drop whitespace at both ends. -/
def pyStrip (s : String) : String :=
  ⟨((s.data.dropWhile Char.isWhitespace).reverse.dropWhile Char.isWhitespace).reverse⟩

/-- Model of Python `str.lower()` on the ASCII command strings the source compares. -/
def pyLower (s : String) : String := ⟨s.data.map Char.toLower⟩

/-- Model of `s.replace("-", "/")` in `parse_date_ddmmaa`: the pattern is a single
    character, so the replacement is a character map. -/
def replaceDashes (s : String) : String :=
  ⟨s.data.map (fun c => if c = '-' then '/' else c)⟩

/-- Model of Python `str.split('--')` (used for checklist items, src 563):
    split on non-overlapping occurrences of the two-character delimiter. -/
def splitDashDash : List Char → List (List Char)
  | [] => [[]]
  | '-' :: '-' :: rest => [] :: splitDashDash rest
  | c :: rest =>
    match splitDashDash rest with
    | [] => [[c]]
    | seg :: segs => (c :: seg) :: segs

/-- Model of Python `str.split('/')` (the separator structure `strptime` checks). -/
def splitSlash : List Char → List (List Char)
  | [] => [[]]
  | '/' :: rest => [] :: splitSlash rest
  | c :: rest =>
    match splitSlash rest with
    | [] => [[c]]
    | seg :: segs => (c :: seg) :: segs

/-- Lexicographic code-point comparison of character lists: exactly how Python compares
    two `str` values (and how `list.sort()` orders file names). -/
def lexLe : List Char → List Char → Bool
  | [], _ => true
  | _ :: _, [] => false
  | a :: as, b :: bs => if a < b then true else if b < a then false else lexLe as bs

/-- Python's `≤` on `str`, as a relation on the model's strings. -/
def strLe (a b : String) : Prop := lexLe a.data b.data = true

instance : DecidableRel strLe := fun a b => by
  unfold strLe; infer_instance

theorem lexLe_total : ∀ a b : List Char, lexLe a b = true ∨ lexLe b a = true
  | [], _ => Or.inl rfl
  | _ :: _, [] => Or.inr rfl
  | a :: as, b :: bs => by
    rcases lt_trichotomy a b with hab | hab | hab
    · left; simp [lexLe, hab]
    · subst hab
      rcases lexLe_total as bs with h | h
      · left; simp [lexLe, lt_irrefl a, h]
      · right; simp [lexLe, lt_irrefl a, h]
    · right; simp [lexLe, hab]

theorem lexLe_trans : ∀ a b c : List Char,
    lexLe a b = true → lexLe b c = true → lexLe a c = true
  | [], _, _, _, _ => rfl
  | _ :: _, [], _, h, _ => by simp [lexLe] at h
  | _ :: _, _ :: _, [], _, h => by simp [lexLe] at h
  | a :: as, b :: bs, c :: cs, h₁, h₂ => by
    simp only [lexLe] at h₁ h₂ ⊢
    rcases lt_trichotomy a b with hab | hab | hab
    · rcases lt_trichotomy b c with hbc | hbc | hbc
      · simp [lt_trans hab hbc]
      · subst hbc; simp [hab]
      · rw [if_neg (asymm hbc), if_pos hbc] at h₂; simp at h₂
    · subst hab
      rcases lt_trichotomy a c with hac | hac | hac
      · simp [hac]
      · subst hac
        rw [if_neg (lt_irrefl a), if_neg (lt_irrefl a)] at h₁ h₂ ⊢
        exact lexLe_trans as bs cs h₁ h₂
      · rw [if_neg (asymm hac), if_pos hac] at h₂; simp at h₂
    · rw [if_neg (asymm hab), if_pos hab] at h₁; simp at h₁

theorem lexLe_antisymm : ∀ a b : List Char,
    lexLe a b = true → lexLe b a = true → a = b
  | [], [], _, _ => rfl
  | [], _ :: _, _, h => by simp [lexLe] at h
  | _ :: _, [], h, _ => by simp [lexLe] at h
  | a :: as, b :: bs, h₁, h₂ => by
    simp only [lexLe] at h₁ h₂
    rcases lt_trichotomy a b with hab | hab | hab
    · rw [if_neg (asymm hab), if_pos hab] at h₂; simp at h₂
    · subst hab
      rw [if_neg (lt_irrefl a), if_neg (lt_irrefl a)] at h₁ h₂
      rw [lexLe_antisymm as bs h₁ h₂]
    · rw [if_neg (asymm hab), if_pos hab] at h₁; simp at h₁

instance : IsTotal String strLe := ⟨fun a b => lexLe_total a.data b.data⟩

instance : IsTrans String strLe := ⟨fun a b c => lexLe_trans a.data b.data c.data⟩

instance : IsAntisymm String strLe :=
  ⟨fun a b h₁ h₂ => by
    cases a; cases b
    exact congrArg String.mk (lexLe_antisymm _ _ h₁ h₂)⟩

/-- Numeric value of a digit string. -/
def digitsVal (l : List Char) : Nat :=
  l.foldl (fun a c => a * 10 + (c.toNat - '0'.toNat)) 0

/-- Two-digit zero pad, as `strftime("%m")` / `strftime("%d")` produce. -/
def pad2 (n : Nat) : String := if n < 10 then "0" ++ toString n else toString n

/-- Four-digit zero pad, as `strftime("%Y")` produces for the years accepted here. -/
def pad4 (n : Nat) : String :=
  if n < 10 then "000" ++ toString n
  else if n < 100 then "00" ++ toString n
  else if n < 1000 then "0" ++ toString n
  else toString n

/-! ### Draft data model

The draft record is the dict built by `extract_info_from_pdf` (src 383-402) and mutated
by the guided-edit handlers.  A checklist entry is either the current
`{"nome": ..., "itens": [...]}` dict or the legacy bare-name form that
`criar_cartoes_cmd` still accepts (src 2256-2263). -/

inductive ChecklistEntry where
  | comItens (nome : String) (itens : List String)
  | legado (nome : String)
deriving DecidableEq

structure Draft where
  titulo : String := ""
  descricao : String := ""
  data_entrega : String := ""
  data_formatada : String := ""
  produtos : List String := []
  observacoes : String := ""
  checklists : List ChecklistEntry := []
  comentarios : String := ""
  membros : List String := []
  membros_ids : List String := []
  etiquetas : List String := []
  etiquetas_ids : List String := []
  arquivo_pdf_original : String := ""
  editado : Bool := false
  anexos : List String := []
deriving DecidableEq

/-! ### Draft store

One file per draft under `rascunhos_cartoes/<user_id>/`.  A file body is either a JSON
document that `json.load` parses back into a draft record, or bytes on which `json.load`
raises (`carregar_rascunhos` catches that and skips the file, src 275-279). -/

inductive FileContent where
  | draft (d : Draft)
  | corrupt
deriving DecidableEq

/-- The per-operator draft directory: file names with their contents. -/
structure DraftStore where
  files : List (String × FileContent)
deriving DecidableEq

/-- Lexicographic (code-point) ordering of file names, as Python `list.sort()` on `str`
    orders them; used both for the model of `os.listdir` and for the explicit sort in
    `atualizar_rascunho`. -/
def lexNames (l : List String) : List String :=
  l.insertionSort strLe

/-- Model of `os.listdir(user_dir)` (see module header: lexicographic order). -/
def listdir (s : DraftStore) : List String :=
  lexNames (s.files.map Prod.fst)

/-- First content stored under a name (a real directory has unique names, so this is
    the file's content). -/
def lookupFile (n : String) : List (String × FileContent) → Option FileContent
  | [] => none
  | (m, c) :: rest => if m = n then some c else lookupFile n rest

/-- `open(path, 'w')` + `json.dump`: replace the content stored under `n`. -/
def writeFile (n : String) (c : FileContent) :
    List (String × FileContent) → List (String × FileContent)
  | [] => []
  | (m, c0) :: fs =>
    if m = n then (m, c) :: writeFile n c fs else (m, c0) :: writeFile n c fs

/-- The filename filter `arquivo.startswith('rascunho_') and arquivo.endswith('.json')`
    used by `carregar_rascunhos` and `atualizar_rascunho`. -/
def isRascunhoJson (n : String) : Bool :=
  "rascunho_".data.isPrefixOf n.data && ".json".data.isSuffixOf n.data

/-- The name `salvar_rascunho` gives a new draft file:
    `f"rascunho_{len(os.listdir(user_dir))}.json"` (src 259) — note the sequence number
    is not zero-padded. -/
def rascunhoName (k : Nat) : String := "rascunho_" ++ toString k ++ ".json"

/-- `salvar_rascunho` (src 254-264): write a new file named after the current number of
    directory entries. -/
def salvar_rascunho (s : DraftStore) (d : Draft) : DraftStore :=
  ⟨s.files ++ [(rascunhoName s.files.length, FileContent.draft d)]⟩

/-- `carregar_rascunhos` (src 267-282): for each directory entry matching
    `rascunho_*.json`, parse it; a file whose parse raises is logged and skipped
    (its position is compacted away).  The source iterates `os.listdir` directly,
    without sorting. -/
def carregar_rascunhos (s : DraftStore) : List Draft :=
  ((listdir s).filter isRascunhoJson).filterMap (fun n =>
    match lookupFile n s.files with
    | some (FileContent.draft d) => some d
    | _ => none)

/-- The sorted file list `arquivos` built inside `atualizar_rascunho` (src 290-291). -/
def arquivosOf (s : DraftStore) : List String :=
  lexNames ((listdir s).filter isRascunhoJson)

/-- `atualizar_rascunho` (src 285-300): overwrite the `index`-th draft file in sorted
    name order; return `false` without touching anything when the index is out of range
    (the Python guard is `0 <= index < len(arquivos)`; the index is a `Nat` here). -/
def atualizar_rascunho (s : DraftStore) (index : Nat) (dados : Draft) :
    DraftStore × Bool :=
  let arquivos := arquivosOf s
  if h : index < arquivos.length then
    (⟨writeFile (arquivos.get ⟨index, h⟩) (FileContent.draft dados) s.files⟩, true)
  else
    (s, false)

/-- `limpar_rascunhos` (src 303-306): `shutil.rmtree` of the whole user directory. -/
def limpar_rascunhos (_s : DraftStore) : DraftStore := ⟨[]⟩

/-! ### Date normalisation

`parse_date_ddmmaa` (src 426-434) runs `datetime.strptime(s2, "%d/%m/%Y")` and, on
success, `strftime("%Y-%m-%dT16:00:00.000Z")`.  CPython's `%d` matches one or two
digits valued 1..31, `%m` one or two digits valued 1..12, `%Y` exactly four digits,
the separators must match literally and the whole string must be consumed; the
`datetime` constructor then checks the day against the month length (with leap years)
and rejects year 0. -/

def isLeap (y : Nat) : Bool :=
  (y % 4 == 0 && y % 100 != 0) || y % 400 == 0

def daysInMonth (y m : Nat) : Nat :=
  if m = 2 then (if isLeap y then 29 else 28)
  else if m = 4 ∨ m = 6 ∨ m = 9 ∨ m = 11 then 30
  else 31

/-- Model of `datetime.strptime(s, "%d/%m/%Y")`, returning `(day, month, year)`. -/
def strptime_dmY (s : String) : Option (Nat × Nat × Nat) :=
  match splitSlash s.data with
  | [dc, mc, yc] =>
    if (!dc.isEmpty && decide (dc.length ≤ 2) && dc.all Char.isDigit &&
        !mc.isEmpty && decide (mc.length ≤ 2) && mc.all Char.isDigit &&
        (yc.length == 4) && yc.all Char.isDigit) then
      let d := digitsVal dc
      let m := digitsVal mc
      let y := digitsVal yc
      if (1 ≤ d && d ≤ daysInMonth y m && 1 ≤ m && m ≤ 12 && 1 ≤ y : Bool) then
        some (d, m, y)
      else none
    else none
  | _ => none

/-- `parse_date_ddmmaa` (src 426-434): `dd/mm/aaaa` (dashes tolerated) to the fixed ISO
    instant at 16:00 UTC, or `None`. -/
def parse_date_ddmmaa (s : String) : Option String :=
  let s2 := pyStrip (replaceDashes s)
  match strptime_dmY s2 with
  | some (d, m, y) =>
    some (pad4 y ++ "-" ++ pad2 m ++ "-" ++ pad2 d ++ "T16:00:00.000Z")
  | none => none

/-- Model of the date part of
    `datetime.fromisoformat(due.replace('Z', '+00:00')).strftime("%d/%m/%Y")`
    that the source uses to redisplay a stored due instant (src 1044-1046):
    read the leading `YYYY-MM-DD` fields back as `(day, month, year)`. -/
def iso_date_fields (s : String) : Option (Nat × Nat × Nat) :=
  match s.data.take 10 with
  | [y1, y2, y3, y4, '-', m1, m2, '-', d1, d2] =>
    if [y1, y2, y3, y4, m1, m2, d1, d2].all Char.isDigit then
      some (digitsVal [d1, d2], digitsVal [m1, m2], digitsVal [y1, y2, y3, y4])
    else none
  | _ => none

/-! ### Conversation state

`user_states[user_id]` is a plain dict.  The record below models the keys used by the
draft-store flows; a key absent from the dict is the default field value, so
`user_states[user_id] = {"mode": None}` is the all-default record `{}`.

The credential-bootstrap position is kept under the separate key `"flow"`
(src 457, 462, 694-718), not under `"mode"`.

`mode` covers the handler branches that only touch the draft store.  The remaining
mode strings of the source (`"add_checklist"`, `"add_checklist_direto"`,
`"busca_cartoes"`, `"adicionando_anexo_existente"`, `"adicionando_comentario_existente"`,
`"anexo"`) drive direct Trello RPCs and are outside the embedded fragment; every
handler modelled here treats them through the same catch-all branches it uses for the
modelled modes, and `cancelar_cmd` treats all mode strings uniformly. -/

structure Creds where
  api_key : Option String := none
  token : Option String := none
  board_id : Option String := none
deriving DecidableEq

inductive Flow where
  | registerApiKey
  | registerToken
  | registerBoard
deriving DecidableEq

inductive Mode where
  | coletandoPdfs
  | editandoDataCartao
  | adicionandoComentarioCartao
  | adicionandoAnexoCartao
  | addChecklistPdf
deriving DecidableEq

/-- The Python string value stored under `state["mode"]` for each modelled mode. -/
def modeStr : Mode → String
  | Mode.coletandoPdfs => "coletando_pdfs"
  | Mode.editandoDataCartao => "editando_data_cartao"
  | Mode.adicionandoComentarioCartao => "adicionando_comentario_cartao"
  | Mode.adicionandoAnexoCartao => "adicionando_anexo_cartao"
  | Mode.addChecklistPdf => "add_checklist_pdf"

inductive ChkStage where
  | aguardandoNome
  | aguardandoItens
deriving DecidableEq

structure Session where
  flow : Option Flow := none
  regApiKey : Option String := none
  regToken : Option String := none
  mode : Option Mode := none
  buffer : List String := []
  index_cartao : Option Nat := none
  anexos : List String := []
  checklist_stage : Option ChkStage := none
  checklist_name : Option String := none
deriving DecidableEq

/-- `cancelar_cmd` (src 674-685): if the state's `"mode"` key holds a truthy value,
    replace the whole state dict by `{"mode": None}`; otherwise report that nothing is
    active.  The `"flow"` key of the credential bootstrap is never consulted. -/
def cancelar_cmd (sess : Session) : Session × String :=
  match sess.mode with
  | some m => (({} : Session), "❌ Operação '" ++ modeStr m ++ "' cancelada.")
  | none => (sess, "Nenhuma operação ativa para cancelar.")

/-- The `/cancelar` event seen together with the operator's draft directory:
    `cancelar_cmd` performs no file operation whatsoever (src 674-685), so the
    directory passes through unchanged. -/
def cancelar_event (store : DraftStore) (sess : Session) :
    DraftStore × Session × String :=
  let r := cancelar_cmd sess
  (store, r.1, r.2)

/-- Result of one text event: the credential file, the draft directory, the session,
    and the replies sent.  A Python exception escaping the handler is `Except.error`. -/
structure TextStep where
  users : Option Creds
  store : DraftStore
  sess : Session
  replies : List String
deriving DecidableEq

/-- Checklist items from one message: split on `--`, strip each segment, drop empties
    (src 563: `[item.strip() for item in text.split('--') if item.strip()]`). -/
def itensFromText (text : String) : List String :=
  ((splitDashDash text.data).map (fun seg => pyStrip ⟨seg⟩)).filter (fun s => s != "")

/-- The state cleanup done on the checklist error paths (src 615-618, 622-627):
    `mode`, `checklist_stage`, `checklist_name` set to `None` (`index_cartao` kept). -/
def clearChk (sess : Session) : Session :=
  { sess with mode := none, checklist_stage := none, checklist_name := none }

/-- `handle_checklist_creation` (src 527-670) in the PDF-draft mode
    `"add_checklist_pdf"`: stage `aguardando_nome` stores the name and advances;
    stage `aguardando_itens` splits the items, appends the checklist to the indexed
    draft and resets the mode.  A `None` `index_cartao` would raise inside the
    `try` (src 575) and is caught by the generic error path that clears the state. -/
def handleChecklistCreation (store : DraftStore) (sess : Session) (text : String) :
    DraftStore × Session × List String :=
  match sess.checklist_stage with
  | some ChkStage.aguardandoNome =>
    if text = "" then
      (store, sess, ["❌ O nome da checklist não pode estar vazio. Tente novamente:"])
    else
      (store,
       { sess with checklist_name := some text,
                   checklist_stage := some ChkStage.aguardandoItens },
       ["✅ Nome da checklist definido como: *" ++ text ++ "*"])
  | some ChkStage.aguardandoItens =>
    let items := itensFromText text
    if items.isEmpty then
      (store, sess, ["❌ Nenhum item válido encontrado. Tente novamente:"])
    else
      match sess.index_cartao with
      | none => (store, clearChk sess, ["❌ Erro ao adicionar checklist: TypeError"])
      | some i =>
        let rs := carregar_rascunhos store
        if h : i < rs.length then
          let r := rs.get ⟨i, h⟩
          let nome := sess.checklist_name.getD ""
          let r2 := { r with
            checklists := r.checklists ++ [ChecklistEntry.comItens nome items],
            editado := true }
          ((atualizar_rascunho store i r2).1,
           { sess with mode := none, checklist_stage := none,
                       checklist_name := none, index_cartao := none },
           ["🎉 **Checklist '" ++ nome ++ "' adicionada com sucesso!**"])
        else
          (store, clearChk sess, ["❌ Cartão não encontrado."])
  | none => (store, sess, ["Não entendi. Use /start para configurar ou use os comandos do bot."])

/-- The mode-dispatch part of `handle_text` (src 739-962) for the modelled modes;
    `text` is already stripped and non-empty. -/
def handleTextModes (users : Option Creds) (store : DraftStore) (sess : Session)
    (text : String) : Except String TextStep :=
  match sess.mode with
  | some Mode.addChecklistPdf =>
    let r := handleChecklistCreation store sess text
    Except.ok ⟨users, r.1, r.2.1, r.2.2⟩
  | some Mode.editandoDataCartao =>
    match sess.index_cartao with
    | none => Except.error "TypeError: index_cartao is None"
    | some i =>
      let sess1 := { sess with buffer := sess.buffer ++ [text] }
      match parse_date_ddmmaa text with
      | some _ =>
        let rs := carregar_rascunhos store
        if h : i < rs.length then
          let r := rs.get ⟨i, h⟩
          let r2 := { r with
            data_entrega := text,
            data_formatada := "📅 Data entrega: " ++ text,
            editado := true }
          Except.ok ⟨users, (atualizar_rascunho store i r2).1,
            { sess1 with mode := none, buffer := [] },
            ["✅ Data alterada para: " ++ text]⟩
        else
          Except.ok ⟨users, store, { sess1 with mode := none, buffer := [] },
            ["Cartão não encontrado."]⟩
      | none =>
        Except.ok ⟨users, store, { sess1 with mode := none, buffer := [] },
          ["❌ Formato de data inválido. Use dd/mm/aaaa"]⟩
  | some Mode.adicionandoComentarioCartao =>
    match sess.index_cartao with
    | none => Except.error "TypeError: index_cartao is None"
    | some i =>
      let sess1 := { sess with buffer := sess.buffer ++ [text] }
      let rs := carregar_rascunhos store
      if h : i < rs.length then
        let r := rs.get ⟨i, h⟩
        let r2 := { r with comentarios := text, editado := true }
        Except.ok ⟨users, (atualizar_rascunho store i r2).1,
          { sess1 with mode := none, buffer := [] },
          ["✅ Comentário adicionado"]⟩
      else
        Except.ok ⟨users, store, { sess1 with mode := none, buffer := [] },
          ["Cartão não encontrado."]⟩
  | some Mode.adicionandoAnexoCartao =>
    if pyLower text = "/ok" then
      if sess.anexos.isEmpty then
        Except.ok ⟨users, store, sess, ["❌ Nenhum anexo foi enviado."]⟩
      else
        match sess.index_cartao with
        | none => Except.error "TypeError: index_cartao is None"
        | some i =>
          let rs := carregar_rascunhos store
          if h : i < rs.length then
            let r := rs.get ⟨i, h⟩
            let r2 := { r with anexos := r.anexos ++ sess.anexos, editado := true }
            Except.ok ⟨users, (atualizar_rascunho store i r2).1,
              { sess with mode := none, anexos := [] },
              ["✅ " ++ toString sess.anexos.length ++ " anexo(s) adicionado(s) ao cartão!"]⟩
          else
            Except.ok ⟨users, store, sess, ["❌ Cartão não encontrado."]⟩
    else
      Except.ok ⟨users, store, sess,
        ["Não entendi. Use /start para configurar ou use os comandos do bot."]⟩
  | some Mode.coletandoPdfs =>
    Except.ok ⟨users, store, sess,
      ["Não entendi. Use /start para configurar ou use os comandos do bot."]⟩
  | none =>
    Except.ok ⟨users, store, sess,
      ["Não entendi. Use /start para configurar ou use os comandos do bot."]⟩

/-- `handle_text` (src 688-962): strip the text; empty text returns immediately; the
    credential flow handles the text first (src 693-718, with the single `save_users`
    call at the final step); otherwise dispatch on the mode. -/
def handle_text (users : Option Creds) (store : DraftStore) (sess : Session)
    (rawText : String) : Except String TextStep :=
  let text := pyStrip rawText
  if text = "" then Except.ok ⟨users, store, sess, []⟩
  else
    match sess.flow with
    | some Flow.registerApiKey =>
      Except.ok ⟨users, store,
        { sess with regApiKey := some text, flow := some Flow.registerToken },
        ["OK. Agora envie seu *Trello Token*:"]⟩
    | some Flow.registerToken =>
      Except.ok ⟨users, store,
        { sess with regToken := some text, flow := some Flow.registerBoard },
        ["Agora envie o *Board ID* (ID do quadro):"]⟩
    | some Flow.registerBoard =>
      Except.ok ⟨some { api_key := sess.regApiKey, token := sess.regToken,
                        board_id := some text },
        store, ({} : Session), ["Configuração salva ✅"]⟩
    | none => handleTextModes users store sess text

/-! ### Document events

`extract_info_from_pdf` (src 312-403) wraps its whole body in one `try`/`except` and
returns `None` on any exception.  The body's outcome on a given document is abstracted
as `PdfParse`, since it depends on `pdfplumber`'s text extraction and the `re` engine;
`raised` covers every exception the body can raise (unreadable file, `text` being
`None`, a regex group missing, ...). -/

inductive PdfParse where
  | parsed (d : Draft)
  | raised (msg : String)

/-- `extract_info_from_pdf` at its boundary: a seed draft, or `None` — never an
    escaping exception (src 401-403). -/
def extract_info_from_pdf : PdfParse → Option Draft
  | PdfParse.parsed d => some d
  | PdfParse.raised _ => none

/-- One incoming document event: its MIME check result, whether the Telegram download
    succeeded, the local download path, and the outcome of the extraction body. -/
structure DocEvent where
  mimePdf : Bool := true
  downloadOk : Bool := true
  path : String := ""
  outcome : PdfParse

/-- `handle_document` (src 2485-2585) for the modelled modes.  In `coletando_pdfs`
    mode: non-PDF uploads are refused; a failed extraction is reported and the
    document dropped (no draft saved, mode kept); a successful extraction is saved
    with `salvar_rascunho`.  In `adicionando_anexo_cartao` mode the downloaded path
    is appended to the session's pending list only.  Any other mode falls through to
    `handle_anexo_document`, which does nothing unless the legacy `"anexo"` mode
    (outside this fragment) is active. -/
def handle_document (store : DraftStore) (sess : Session) (ev : DocEvent) :
    DraftStore × Session × List String :=
  match sess.mode with
  | some Mode.coletandoPdfs =>
    if !ev.mimePdf then
      (store, sess, ["❌ Por favor, envie apenas arquivos PDF."])
    else if !ev.downloadOk then
      (store, sess, ["❌ Erro ao processar PDF:"])
    else
      match extract_info_from_pdf ev.outcome with
      | none => (store, sess, ["❌ Não foi possível extrair informações do PDF."])
      | some d =>
        let store2 := salvar_rascunho store d
        (store2, sess,
         ["✅ PDF processado com sucesso! (" ++
          toString (carregar_rascunhos store2).length ++ " cartão(s) aguardando)"])
  | some Mode.adicionandoAnexoCartao =>
    if !ev.downloadOk then
      (store, sess, ["❌ Erro ao processar arquivo:"])
    else
      (store, { sess with anexos := sess.anexos ++ [ev.path] },
       ["✅ Arquivo recebido. Total de anexos: " ++ toString (sess.anexos.length + 1)])
  | _ => (store, sess, [])

/-! ### Commit pipeline

`criar_cartoes_cmd` (src 2200-2342), given that credentials exist, drafts exist and
the destination list `"🚨 PEDIDOS SEM ARTE"` was found (its id is the `idList`
parameter).  The remote board is the oracle `TrelloApi`: `.ok` carries the id the
call returns, `.error` the exception text `str(e)`.  The model also returns the
ordered trace of remote calls attempted, so that "no further sub-operation was
attempted" is an observable statement.  `ex` models `os.path.exists` for attachment
paths (src 2301). -/

inductive RpcOp where
  | createCard (name desc idList : String) (due : Option String)
  | createChecklist (cardId nome : String)
  | addCheckItem (checklistId nome : String)
  | addComment (cardId text : String)
  | addMember (cardId memberId : String)
  | addLabel (cardId labelId : String)
  | uploadAttachment (cardId path : String)
deriving DecidableEq

structure TrelloApi where
  call : RpcOp → Except String String

/-- The item loop of one checklist (src 2268-2270): items are added one by one; a
    failing `add_checkitem` raises into the per-checklist `except` (src 2272), so the
    remaining items of that checklist are skipped. -/
def addCheckItems (api : TrelloApi) (chkId : String) : List String → List RpcOp
  | [] => []
  | it :: rest =>
    match api.call (RpcOp.addCheckItem chkId it) with
    | Except.ok _ => RpcOp.addCheckItem chkId it :: addCheckItems api chkId rest
    | Except.error _ => [RpcOp.addCheckItem chkId it]

/-- Name and items of a checklist entry: dict form or legacy bare name
    (src 2256-2263). -/
def entryNomeItens : ChecklistEntry → String × List String
  | ChecklistEntry.comItens n itens => (n, itens)
  | ChecklistEntry.legado n => (n, [])

/-- One checklist of one draft (src 2254-2273): the create call is attempted; on
    failure it is caught and logged, nothing further for this checklist. -/
def runChecklist (api : TrelloApi) (cardId : String) (e : ChecklistEntry) : List RpcOp :=
  let p := entryNomeItens e
  RpcOp.createChecklist cardId p.1 ::
    match api.call (RpcOp.createChecklist cardId p.1) with
    | Except.ok chkId => addCheckItems api chkId p.2
    | Except.error _ => []

def runChecklists (api : TrelloApi) (cardId : String) (es : List ChecklistEntry) :
    List RpcOp :=
  es.flatMap (runChecklist api cardId)

/-- The aggregated comment (src 2275-2280): attempted when non-empty; failure caught. -/
def runComment (cardId coment : String) : List RpcOp :=
  if coment = "" then [] else [RpcOp.addComment cardId coment]

/-- Member additions (src 2282-2288): one call per id, each failure caught, the loop
    always continues. -/
def runMembers (cardId : String) (ids : List String) : List RpcOp :=
  ids.map (RpcOp.addMember cardId)

/-- Label additions (src 2290-2296): same per-id isolation as members. -/
def runLabels (cardId : String) (ids : List String) : List RpcOp :=
  ids.map (RpcOp.addLabel cardId)

/-- Attachment uploads (src 2298-2310): paths failing `os.path.exists` are skipped
    without a call; each upload failure is caught and the loop continues. -/
def runAnexos (ex : String → Bool) (cardId : String) (paths : List String) :
    List RpcOp :=
  (paths.filter ex).map (RpcOp.uploadAttachment cardId)

/-- One draft of the commit loop body (src 2233-2322).  A failing base create raises
    to the per-draft `except` (src 2317): the draft is recorded as failed with the
    message `f"Cartão {i} ({titulo}): {str(e)}"` and nothing else is attempted for it.
    After a successful base create, every decoration failure is caught at the
    sub-operation boundary, and the draft is recorded as created under the name the
    create call echoes back (`card["name"]`, the requested title). -/
def processRascunho (api : TrelloApi) (ex : String → Bool) (idList : String) (i : Nat)
    (r : Draft) : List RpcOp × Except String String :=
  let due : Option String :=
    if r.data_entrega != "" && r.data_entrega != "N/A" then
      parse_date_ddmmaa r.data_entrega
    else none
  let op := RpcOp.createCard r.titulo r.descricao idList due
  match api.call op with
  | Except.error e =>
    ([op], Except.error ("Cartão " ++ toString i ++ " (" ++ r.titulo ++ "): " ++ e))
  | Except.ok cardId =>
    (op :: (runChecklists api cardId r.checklists ++
            runComment cardId r.comentarios ++
            runMembers cardId r.membros_ids ++
            runLabels cardId r.etiquetas_ids ++
            runAnexos ex cardId r.anexos),
     Except.ok r.titulo)

/-- The `for i, rascunho in enumerate(rascunhos, 1)` loop (src 2233-2322), collecting
    `cartoes_criados`, `erros` and the call trace. -/
def commitLoop (api : TrelloApi) (ex : String → Bool) (idList : String) (i : Nat) :
    List Draft → List String × List String × List RpcOp
  | [] => ([], [], [])
  | r :: rest =>
    let p := processRascunho api ex idList i r
    let q := commitLoop api ex idList (i + 1) rest
    match p.2 with
    | Except.ok name => (name :: q.1, q.2.1, p.1 ++ q.2.2)
    | Except.error e => (q.1, e :: q.2.1, p.1 ++ q.2.2)

structure CommitResult where
  criados : List String
  erros : List String
  trace : List RpcOp
  store : DraftStore
deriving DecidableEq

/-- `criar_cartoes_cmd` (src 2200-2342): load the drafts (empty set returns without
    doing anything), run the loop, then `limpar_rascunhos` unconditionally
    (src 2325) — the wipe happens whether or not drafts failed. -/
def criar_cartoes_cmd (api : TrelloApi) (ex : String → Bool) (idList : String)
    (store : DraftStore) : CommitResult :=
  let rs := carregar_rascunhos store
  if rs.isEmpty then ⟨[], [], [], store⟩
  else
    let t := commitLoop api ex idList 1 rs
    ⟨t.1, t.2.1, t.2.2, limpar_rascunhos store⟩

/-! ### Store lemmas -/

theorem lookupFile_writeFile_self (n : String) (c : FileContent) :
    ∀ fs : List (String × FileContent), n ∈ fs.map Prod.fst →
      lookupFile n (writeFile n c fs) = some c
  | [], h => by simp at h
  | (m, c0) :: fs, h => by
    by_cases hm : m = n
    · subst hm
      simp [writeFile, lookupFile]
    · have h2 : n ∈ fs.map Prod.fst := by
        simp only [List.map_cons, List.mem_cons] at h
        rcases h with h1 | h1
        · exact absurd h1.symm hm
        · exact h1
      simp only [writeFile]
      rw [if_neg hm]
      simp only [lookupFile]
      rw [if_neg hm]
      exact lookupFile_writeFile_self n c fs h2

theorem lookupFile_writeFile_ne (k n : String) (c : FileContent) (hkn : k ≠ n) :
    ∀ fs : List (String × FileContent),
      lookupFile k (writeFile n c fs) = lookupFile k fs
  | [] => rfl
  | (m, c0) :: fs => by
    simp only [writeFile]
    by_cases hm : m = n
    · subst hm
      have hmk : ¬ m = k := fun h => hkn (h ▸ rfl)
      rw [if_pos rfl]
      simp only [lookupFile]
      rw [if_neg hmk, if_neg hmk]
      exact lookupFile_writeFile_ne k m c hkn fs
    · rw [if_neg hm]
      simp only [lookupFile]
      by_cases hk : m = k
      · rw [if_pos hk, if_pos hk]
      · rw [if_neg hk, if_neg hk]
        exact lookupFile_writeFile_ne k n c hkn fs

theorem map_fst_writeFile (n : String) (c : FileContent) :
    ∀ fs : List (String × FileContent),
      (writeFile n c fs).map Prod.fst = fs.map Prod.fst
  | [] => rfl
  | (m, c0) :: fs => by
    by_cases hm : m = n <;>
      simp [writeFile, hm, map_fst_writeFile n c fs]

theorem lookupFile_mem {n : String} {c : FileContent} :
    ∀ {fs : List (String × FileContent)}, lookupFile n fs = some c →
      n ∈ fs.map Prod.fst
  | [], h => by simp [lookupFile] at h
  | (m, c0) :: fs, h => by
    by_cases hm : m = n
    · simp [hm]
    · simp only [lookupFile, if_neg hm] at h
      simpa using Or.inr (lookupFile_mem h)

theorem mem_arquivosOf_iff (s : DraftStore) (n : String) :
    n ∈ arquivosOf s ↔ n ∈ s.files.map Prod.fst ∧ isRascunhoJson n = true := by
  unfold arquivosOf listdir lexNames
  rw [List.mem_insertionSort, List.mem_filter, List.mem_insertionSort]

theorem length_filterMap_eq_countP {α β : Type} (f : α → Option β) :
    ∀ l : List α, (l.filterMap f).length = l.countP (fun a => (f a).isSome)
  | [] => rfl
  | a :: l => by
    cases hf : f a <;>
      simp [List.filterMap_cons, hf, List.countP_cons,
        length_filterMap_eq_countP f l]

/-! ### Claims about the draft store -/

/-- **C7**.  `atualizar_rascunho s i d` with `i` in range succeeds, stores exactly `d`
    under the `i`-th file name (in the sorted order the function itself uses), leaves
    the content of every other name untouched and the name list unchanged; with `i`
    out of range it returns the store unchanged with `false`.  This is the spec's
    replace contract: overwrite one draft in place, fail silently out of range,
    never corrupt unrelated drafts. -/
theorem c7_replace_isolation (s : DraftStore) (i : Nat) (d : Draft) :
    (∀ h : i < (arquivosOf s).length,
      (atualizar_rascunho s i d).2 = true ∧
      lookupFile ((arquivosOf s).get ⟨i, h⟩) (atualizar_rascunho s i d).1.files =
        some (FileContent.draft d) ∧
      (∀ n, n ≠ (arquivosOf s).get ⟨i, h⟩ →
        lookupFile n (atualizar_rascunho s i d).1.files = lookupFile n s.files) ∧
      (atualizar_rascunho s i d).1.files.map Prod.fst = s.files.map Prod.fst) ∧
    ((arquivosOf s).length ≤ i → atualizar_rascunho s i d = (s, false)) := by
  constructor
  · intro h
    have hmem : (arquivosOf s).get ⟨i, h⟩ ∈ s.files.map Prod.fst :=
      ((mem_arquivosOf_iff s _).mp (List.get_mem _ _ _)).1
    unfold atualizar_rascunho
    simp only []
    rw [dif_pos h]
    refine ⟨rfl, ?_, ?_, ?_⟩
    · exact lookupFile_writeFile_self _ _ _ hmem
    · intro n hn
      exact lookupFile_writeFile_ne n _ _ hn s.files
    · exact map_fst_writeFile _ _ s.files
  · intro h
    unfold atualizar_rascunho
    simp only []
    rw [dif_neg (not_lt.mpr h)]

/-- Witness for C7 on a two-draft store: in-range replace at index 0 succeeds and
    leaves `rascunho_1.json` untouched; index 5 is out of range and is a no-op. -/
theorem c7_witness :
    (atualizar_rascunho (⟨[("rascunho_0.json", FileContent.draft { titulo := "A" }),
        ("rascunho_1.json", FileContent.draft { titulo := "B" })]⟩ : DraftStore) 0
        { titulo := "C" }).2 = true ∧
    lookupFile "rascunho_1.json"
      (atualizar_rascunho (⟨[("rascunho_0.json", FileContent.draft { titulo := "A" }),
        ("rascunho_1.json", FileContent.draft { titulo := "B" })]⟩ : DraftStore) 0
        { titulo := "C" }).1.files =
      lookupFile "rascunho_1.json"
        [("rascunho_0.json", FileContent.draft { titulo := "A" }),
         ("rascunho_1.json", FileContent.draft { titulo := "B" })] ∧
    atualizar_rascunho (⟨[("rascunho_0.json", FileContent.draft { titulo := "A" }),
        ("rascunho_1.json", FileContent.draft { titulo := "B" })]⟩ : DraftStore) 5
        { titulo := "C" } =
      (⟨[("rascunho_0.json", FileContent.draft { titulo := "A" }),
         ("rascunho_1.json", FileContent.draft { titulo := "B" })]⟩, false) := by
  refine ⟨((c7_replace_isolation _ 0 _).1 (by decide)).1, ?_, (c7_replace_isolation _ 5
    { titulo := "C" }).2 (by decide)⟩
  exact ((c7_replace_isolation _ 0 _).1 (by decide)).2.2.1 "rascunho_1.json" (by decide)

/-- `true` exactly on the directory entries `carregar_rascunhos` turns into a draft:
    a `rascunho_*.json` name whose body parses. -/
def readableFile (e : String × FileContent) : Bool :=
  (match e.2 with
   | FileContent.draft _ => true
   | FileContent.corrupt => false) && isRascunhoJson e.1

theorem countP_lookup_eq_countP_readable :
    ∀ fs : List (String × FileContent), (fs.map Prod.fst).Nodup →
      (fs.map Prod.fst).countP
        (fun n => (match lookupFile n fs with
          | some (FileContent.draft d) => some d
          | _ => none).isSome && isRascunhoJson n) =
      fs.countP readableFile
  | [], _ => rfl
  | (n, c) :: fs, hnd => by
    have hnotmem : n ∉ fs.map Prod.fst := (List.nodup_cons.mp hnd).1
    have hndtail : (fs.map Prod.fst).Nodup := (List.nodup_cons.mp hnd).2
    have hcongr :
        (fs.map Prod.fst).countP
          (fun m => (match lookupFile m ((n, c) :: fs) with
            | some (FileContent.draft d) => some d
            | _ => none).isSome && isRascunhoJson m) =
        (fs.map Prod.fst).countP
          (fun m => (match lookupFile m fs with
            | some (FileContent.draft d) => some d
            | _ => none).isSome && isRascunhoJson m) := by
      refine List.countP_congr (fun m hm => ?_)
      have hmn : ¬ n = m := fun he => hnotmem (he ▸ hm)
      simp [lookupFile, hmn]
    have hhead : lookupFile n ((n, c) :: fs) = some c := by
      simp [lookupFile]
    simp only [List.map_cons, List.countP_cons, hcongr,
      countP_lookup_eq_countP_readable fs hndtail, hhead]
    cases c <;> simp [readableFile]

/-- **C10**.  Listing the drafts is total (the Lean function cannot raise by
    construction, mirroring the `try`/`except` around each `json.load`): every
    readable `rascunho_*.json` entry's draft appears in the result, and the result has
    exactly one element per readable entry — unreadable entries are silently omitted
    and later drafts close the gap. -/
theorem c10_listing_total (s : DraftStore) (hnd : (s.files.map Prod.fst).Nodup) :
    (∀ n d, lookupFile n s.files = some (FileContent.draft d) →
      isRascunhoJson n = true → d ∈ carregar_rascunhos s) ∧
    (carregar_rascunhos s).length = (s.files.filter readableFile).length := by
  constructor
  · intro n d hl hp
    unfold carregar_rascunhos
    rw [List.mem_filterMap]
    refine ⟨n, ?_, by rw [hl]⟩
    rw [List.mem_filter]
    refine ⟨?_, hp⟩
    unfold listdir lexNames
    rw [List.mem_insertionSort]
    exact lookupFile_mem hl
  · unfold carregar_rascunhos listdir lexNames
    rw [length_filterMap_eq_countP, List.countP_filter]
    rw [(List.perm_insertionSort strLe (s.files.map Prod.fst)).countP_eq]
    rw [countP_lookup_eq_countP_readable s.files hnd]
    rw [List.countP_eq_length_filter]

/-- Witness for C10: a store holding one good draft file, one corrupt draft file and
    one unrelated file lists exactly the one readable draft. -/
theorem c10_witness :
    ({ titulo := "good" } : Draft) ∈ carregar_rascunhos
      (⟨[("rascunho_0.json", FileContent.draft { titulo := "good" }),
         ("rascunho_1.json", FileContent.corrupt),
         ("notes.txt", FileContent.draft { titulo := "other" })]⟩ : DraftStore) ∧
    (carregar_rascunhos
      (⟨[("rascunho_0.json", FileContent.draft { titulo := "good" }),
         ("rascunho_1.json", FileContent.corrupt),
         ("notes.txt", FileContent.draft { titulo := "other" })]⟩ : DraftStore)).length =
      ([("rascunho_0.json", FileContent.draft ({ titulo := "good" } : Draft)),
        ("rascunho_1.json", FileContent.corrupt),
        ("notes.txt", FileContent.draft { titulo := "other" })].filter readableFile).length := by
  refine ⟨(c10_listing_total _ (by decide)).1 "rascunho_0.json" _ rfl rfl,
    (c10_listing_total _ (by decide)).2⟩

/-! ### C1: append order vs. listing order -/

def c1draft (k : Nat) : Draft := { titulo := "T" ++ toString k }

/-- Eleven consecutive `salvar_rascunho` appends into a fresh directory. -/
def c1store : DraftStore :=
  (List.range 11).foldl (fun s k => salvar_rascunho s (c1draft k)) ⟨[]⟩

/-- **C1** (violated by the code).  After 11 appends the file names are
    `rascunho_0.json` … `rascunho_10.json`; under the lexicographic directory order —
    the most favourable deterministic reading of `os.listdir`, and the order the
    source's own `arquivos.sort()` in `atualizar_rascunho` uses — `rascunho_10.json`
    sorts between `rascunho_1.json` and `rascunho_2.json`, so `carregar_rascunhos`
    returns the 11th draft at index 2 and the listing is **not** in creation order. -/
theorem c1_order_breaks_at_eleven :
    (carregar_rascunhos c1store).map Draft.titulo =
      ["T0", "T1", "T10", "T2", "T3", "T4", "T5", "T6", "T7", "T8", "T9"] ∧
    carregar_rascunhos c1store ≠ (List.range 11).map c1draft := by
  decide

/-! ### C2: partial commit over three drafts -/

def c2d1 : Draft :=
  { titulo := "T1", descricao := "D1", data_entrega := "25/12/2024",
    checklists := [ChecklistEntry.comItens "c1" ["i1"]], comentarios := "com1",
    membros_ids := ["m1"], etiquetas_ids := ["e1"], anexos := ["a1"] }

def c2d2 : Draft :=
  { titulo := "T2", descricao := "D2", data_entrega := "N/A",
    checklists := [ChecklistEntry.comItens "c2" ["i2"]], comentarios := "com2",
    membros_ids := ["m2"], etiquetas_ids := ["e2"], anexos := ["a2"] }

def c2d3 : Draft := { titulo := "T3" }

def c2store : DraftStore :=
  salvar_rascunho (salvar_rascunho (salvar_rascunho ⟨[]⟩ c2d1) c2d2) c2d3

/-- A board that rejects the base create of the draft titled `T2` and accepts
    everything else. -/
def c2api : TrelloApi :=
  ⟨fun op =>
    match op with
    | RpcOp.createCard n _ _ _ =>
      if n = "T2" then Except.error "boom" else Except.ok ("card_" ++ n)
    | RpcOp.createChecklist _ nome => Except.ok ("chk_" ++ nome)
    | _ => Except.ok ""⟩

/-- **C2**.  Committing three stored drafts when the second draft's base create fails:
    drafts 1 and 3 are reported created, draft 2 failed with the captured reason
    `boom`; the trace shows the base create of draft 2 followed immediately by the
    base create of draft 3 — none of draft 2's checklists, comment, members, labels
    or attachments are attempted — and the draft store is wiped afterwards. -/
theorem c2_partial_commit :
    criar_cartoes_cmd c2api (fun _ => true) "LID" c2store =
      { criados := ["T1", "T3"],
        erros := ["Cartão 2 (T2): boom"],
        trace :=
          [RpcOp.createCard "T1" "D1" "LID" (some "2024-12-25T16:00:00.000Z"),
           RpcOp.createChecklist "card_T1" "c1",
           RpcOp.addCheckItem "chk_c1" "i1",
           RpcOp.addComment "card_T1" "com1",
           RpcOp.addMember "card_T1" "m1",
           RpcOp.addLabel "card_T1" "e1",
           RpcOp.uploadAttachment "card_T1" "a1",
           RpcOp.createCard "T2" "D2" "LID" none,
           RpcOp.createCard "T3" "" "LID" none],
        store := ⟨[]⟩ } := by
  decide

/-! ### C3: secondary-operation isolation within one draft -/

def c3draft : Draft :=
  { titulo := "TX",
    checklists := [ChecklistEntry.comItens "chkA" ["x1"],
                   ChecklistEntry.comItens "chkB" ["y1"]],
    comentarios := "comX", membros_ids := ["mX"], etiquetas_ids := ["eX"],
    anexos := ["pX"] }

def c3store : DraftStore := salvar_rascunho ⟨[]⟩ c3draft

/-- A board that rejects exactly the creation of the checklist named `chkA`. -/
def c3api : TrelloApi :=
  ⟨fun op =>
    match op with
    | RpcOp.createCard n _ _ _ => Except.ok ("card_" ++ n)
    | RpcOp.createChecklist _ nome =>
      if nome = "chkA" then Except.error "chkfail" else Except.ok ("chk_" ++ nome)
    | _ => Except.ok ""⟩

/-- **C3**.  One draft whose base create succeeds but whose first checklist-creation
    call fails: the draft is still reported created (no error entry), and the trace
    shows the pipeline going on to the second checklist (with its item), the comment,
    the member, the label and the attachment of that same draft. -/
theorem c3_secondary_isolation :
    criar_cartoes_cmd c3api (fun _ => true) "LID" c3store =
      { criados := ["TX"],
        erros := [],
        trace :=
          [RpcOp.createCard "TX" "" "LID" none,
           RpcOp.createChecklist "card_TX" "chkA",
           RpcOp.createChecklist "card_TX" "chkB",
           RpcOp.addCheckItem "chk_chkB" "y1",
           RpcOp.addComment "card_TX" "comX",
           RpcOp.addMember "card_TX" "mX",
           RpcOp.addLabel "card_TX" "eX",
           RpcOp.uploadAttachment "card_TX" "pX"],
        store := ⟨[]⟩ } := by
  decide

/-! ### C9: date round-trip -/

/-- **C9**.  `"25/12/2024"` normalises to the single fixed instant
    `2024-12-25T16:00:00.000Z` (16:00 UTC), and reading the calendar fields of that
    instant back recovers day 25, month 12, year 2024. -/
theorem c9_date_round_trip :
    parse_date_ddmmaa "25/12/2024" = some "2024-12-25T16:00:00.000Z" ∧
    iso_date_fields "2024-12-25T16:00:00.000Z" = some (25, 12, 2024) := by
  decide

instance {ε α : Type} [DecidableEq ε] [DecidableEq α] : DecidableEq (Except ε α) :=
  fun a b =>
    match a, b with
    | Except.ok x, Except.ok y =>
      if h : x = y then isTrue (by rw [h]) else
        isFalse (fun he => by cases he; exact h rfl)
    | Except.error x, Except.error y =>
      if h : x = y then isTrue (by rw [h]) else
        isFalse (fun he => by cases he; exact h rfl)
    | Except.ok _, Except.error _ => isFalse (fun he => by cases he)
    | Except.error _, Except.ok _ => isFalse (fun he => by cases he)

/-! ### C4: guided date edit on invalid input -/

def c4store : DraftStore := salvar_rascunho ⟨[]⟩ { titulo := "P" }

def c4sess : Session :=
  { mode := some Mode.editandoDataCartao, index_cartao := some 0 }

/-- **C4** is false as stated: on a text that fails date validation the handler does
    print the error and touch no draft, but it does **not** stay in the date-edit
    stage — it resets `mode` to `None` (src 786-789 run on both the valid and the
    invalid branch), so the session is not awaiting a new value afterwards. -/
theorem c4_counterexample :
    handle_text none c4store c4sess "banana" =
      Except.ok ⟨none, c4store,
        { mode := none, index_cartao := some 0 },
        ["❌ Formato de data inválido. Use dd/mm/aaaa"]⟩ ∧
    ¬ ({ mode := none, index_cartao := some 0 } : Session).mode = c4sess.mode := by
  decide

/-- **C4 amended**.  In the guided date-edit mode, a text event whose value fails
    `parse_date_ddmmaa` produces the operator-visible error message, leaves the
    credential file and every stored draft unchanged, and resets the session to idle
    (`mode = None`, buffer discarded) — the mode is reset after failed validation just
    as after successful validation, so the operator must re-enter the edit flow to
    retry. -/
theorem c4_invalid_date_resets (users : Option Creds) (store : DraftStore)
    (sess : Session) (text : String) (i : Nat)
    (hflow : sess.flow = none)
    (hmode : sess.mode = some Mode.editandoDataCartao)
    (hidx : sess.index_cartao = some i)
    (hne : ¬ pyStrip text = "")
    (hbad : parse_date_ddmmaa (pyStrip text) = none) :
    handle_text users store sess text =
      Except.ok ⟨users, store, { sess with mode := none, buffer := [] },
        ["❌ Formato de data inválido. Use dd/mm/aaaa"]⟩ := by
  cases sess with
  | mk fl rk rt md buf idx ax cs cn =>
    dsimp only at hflow hmode hidx
    subst hflow
    subst hmode
    subst hidx
    simp only [handle_text, handleTextModes]
    rw [if_neg hne]
    simp only [hbad]

/-- Witness for C4 amended: the malformed date `" 99/99/9999 "` in date-edit mode. -/
theorem c4_witness :
    handle_text none c4store c4sess " 99/99/9999 " =
      Except.ok ⟨none, c4store, { mode := none, index_cartao := some 0 },
        ["❌ Formato de data inválido. Use dd/mm/aaaa"]⟩ := by
  exact c4_invalid_date_resets none c4store c4sess " 99/99/9999 " 0
    rfl rfl rfl (by decide) (by decide)

/-! ### C5: the global cancel -/

def c5sess : Session := { flow := some Flow.registerToken, regApiKey := some "K" }

/-- **C5** is false as stated: a cancel event arriving mid credential-registration
    (a reachable state — `start_cmd` put the operator there and one key was already
    buffered) discards nothing: the flow position and the buffered API key survive,
    and the reply claims no operation is active even though one is.  `cancelar_cmd`
    only consults the `"mode"` key, never `"flow"` (src 674-685). -/
theorem c5_counterexample :
    (cancelar_event ⟨[]⟩ c5sess).2.1 = c5sess ∧
    (cancelar_event ⟨[]⟩ c5sess).2.1.flow = some Flow.registerToken ∧
    (cancelar_event ⟨[]⟩ c5sess).2.1.regApiKey = some "K" ∧
    (cancelar_event ⟨[]⟩ c5sess).2.2 = "Nenhuma operação ativa para cancelar." := by
  decide

/-- **C5 amended**.  The cancel event never touches the draft store.  Whenever a
    `mode` is active it resets the whole session to the idle record (all
    session-scoped buffers discarded) and names the cancelled mode; when no `mode` is
    active — which includes the credential-registration flow, tracked under the
    separate `flow` key — it is a no-op on the session and reports that there is
    nothing to cancel. -/
theorem c5_cancel_frame (store : DraftStore) (sess : Session) :
    (cancelar_event store sess).1 = store ∧
    (∀ m, sess.mode = some m →
      (cancelar_event store sess).2.1 = ({} : Session) ∧
      (cancelar_event store sess).2.2 =
        "❌ Operação '" ++ modeStr m ++ "' cancelada.") ∧
    (sess.mode = none →
      (cancelar_event store sess).2.1 = sess ∧
      (cancelar_event store sess).2.2 = "Nenhuma operação ativa para cancelar.") := by
  refine ⟨rfl, ?_, ?_⟩
  · intro m hm
    constructor <;> simp [cancelar_event, cancelar_cmd, hm]
  · intro hm
    constructor <;> simp [cancelar_event, cancelar_cmd, hm]

/-- Witness for C5 amended: cancelling an active PDF-collection session clears the
    session (buffers included) and leaves the stored draft file alone. -/
theorem c5_witness :
    (cancelar_event ⟨[("rascunho_0.json", FileContent.draft { titulo := "keep" })]⟩
      { mode := some Mode.coletandoPdfs, anexos := ["p"], buffer := ["b"] }).2.1 =
      ({} : Session) ∧
    (cancelar_event ⟨[("rascunho_0.json", FileContent.draft { titulo := "keep" })]⟩
      { mode := some Mode.coletandoPdfs, anexos := ["p"], buffer := ["b"] }).1 =
      ⟨[("rascunho_0.json", FileContent.draft { titulo := "keep" })]⟩ := by
  refine ⟨((c5_cancel_frame _ _).2.1 Mode.coletandoPdfs rfl).1, (c5_cancel_frame _ _).1⟩

/-! ### C6: atomic credential commit -/

/-- **C6**.  During the credential bootstrap, the durable user record is written
    exactly once: the API-key step and the token step only move text into the
    session buffer and leave the credential file untouched; the board-id step writes
    all three fields together and resets the session.  No prefix of the flow ever
    persists a partial credential set. -/
theorem c6_credentials_atomic (users : Option Creds) (store : DraftStore)
    (sess : Session) (text : String) (hne : ¬ pyStrip text = "") :
    (sess.flow = some Flow.registerApiKey →
      handle_text users store sess text =
        Except.ok ⟨users, store,
          { sess with regApiKey := some (pyStrip text),
                      flow := some Flow.registerToken },
          ["OK. Agora envie seu *Trello Token*:"]⟩) ∧
    (sess.flow = some Flow.registerToken →
      handle_text users store sess text =
        Except.ok ⟨users, store,
          { sess with regToken := some (pyStrip text),
                      flow := some Flow.registerBoard },
          ["Agora envie o *Board ID* (ID do quadro):"]⟩) ∧
    (sess.flow = some Flow.registerBoard →
      handle_text users store sess text =
        Except.ok ⟨some { api_key := sess.regApiKey, token := sess.regToken,
                          board_id := some (pyStrip text) },
          store, ({} : Session), ["Configuração salva ✅"]⟩) := by
  refine ⟨fun h => ?_, fun h => ?_, fun h => ?_⟩ <;>
    · simp only [handle_text]
      rw [if_neg hne, h]

/-- Witness for C6: the three steps of the flow on concrete inputs — the credential
    file stays `none` through the first two steps and receives all three fields at
    the last one. -/
theorem c6_witness :
    handle_text none ⟨[]⟩ { flow := some Flow.registerApiKey } "KEY" =
      Except.ok ⟨none, ⟨[]⟩,
        { regApiKey := some "KEY", flow := some Flow.registerToken },
        ["OK. Agora envie seu *Trello Token*:"]⟩ ∧
    handle_text none ⟨[]⟩
      { flow := some Flow.registerToken, regApiKey := some "KEY" } "TOK" =
      Except.ok ⟨none, ⟨[]⟩,
        { regApiKey := some "KEY", regToken := some "TOK",
          flow := some Flow.registerBoard },
        ["Agora envie o *Board ID* (ID do quadro):"]⟩ ∧
    handle_text none ⟨[]⟩
      { flow := some Flow.registerBoard, regApiKey := some "KEY",
        regToken := some "TOK" } "BID" =
      Except.ok ⟨some
          { api_key := some "KEY", token := some "TOK", board_id := some "BID" },
        ⟨[]⟩, ({} : Session), ["Configuração salva ✅"]⟩ := by
  refine ⟨?_, ?_, ?_⟩
  · exact (c6_credentials_atomic none ⟨[]⟩ _ "KEY" (by decide)).1 rfl
  · exact (c6_credentials_atomic none ⟨[]⟩ _ "TOK" (by decide)).2.1 rfl
  · exact (c6_credentials_atomic none ⟨[]⟩ _ "BID" (by decide)).2.2 rfl

/-! ### C8: extraction failures stay inside the collection session -/

/-- **C8**.  The extraction operation returns either a seed draft or the well-defined
    failure value `none` — by construction it cannot propagate an exception, mirroring
    the single `try`/`except` that spans the whole body of `extract_info_from_pdf`.
    In PDF-collection mode, a document whose extraction fails is reported, adds no
    draft (the store is returned unchanged), and leaves the session — mode
    included — exactly as it was, so the next document event is processed the same
    way; a document whose extraction succeeds is appended with `salvar_rascunho`. -/
theorem c8_extraction_boundary (store : DraftStore) (sess : Session) (ev : DocEvent)
    (hmode : sess.mode = some Mode.coletandoPdfs)
    (hmime : ev.mimePdf = true) (hdl : ev.downloadOk = true) :
    (∀ p, extract_info_from_pdf p = none ∨ ∃ d, extract_info_from_pdf p = some d) ∧
    (∀ msg, ev.outcome = PdfParse.raised msg →
      handle_document store sess ev =
        (store, sess, ["❌ Não foi possível extrair informações do PDF."])) ∧
    (∀ d, ev.outcome = PdfParse.parsed d →
      handle_document store sess ev =
        (salvar_rascunho store d, sess,
         ["✅ PDF processado com sucesso! (" ++
          toString (carregar_rascunhos (salvar_rascunho store d)).length ++
          " cartão(s) aguardando)"])) := by
  refine ⟨fun p => ?_, fun msg h => ?_, fun d h => ?_⟩
  · cases p
    · right; exact ⟨_, rfl⟩
    · left; rfl
  · cases ev with
    | mk mp dl pa oc =>
      dsimp only at hmime hdl h
      subst hmime
      subst hdl
      subst h
      simp [handle_document, hmode, extract_info_from_pdf]
  · cases ev with
    | mk mp dl pa oc =>
      dsimp only at hmime hdl h
      subst hmime
      subst hdl
      subst h
      simp [handle_document, hmode, extract_info_from_pdf]

/-- Witness for C8: a concrete raising extraction in collection mode changes
    nothing and reports the failure. -/
theorem c8_witness :
    handle_document ⟨[]⟩ { mode := some Mode.coletandoPdfs }
      { outcome := PdfParse.raised "IndexError" } =
      (⟨[]⟩, { mode := some Mode.coletandoPdfs },
       ["❌ Não foi possível extrair informações do PDF."]) := by
  exact (c8_extraction_boundary ⟨[]⟩ { mode := some Mode.coletandoPdfs }
    { outcome := PdfParse.raised "IndexError" } rfl rfl rfl).2.1 "IndexError" rfl

end BotTrello
